import Mathlib

/-!
Verification of the cd-agent workflow-orchestrator contract.

The repository ships the orchestrator's observable contract: a golden
dataset of scenarios (src/evals/fixtures/orchestrator_golden_dataset.py),
heuristic scoring metrics (src/evals/metrics/orchestrator_metrics.py),
and test harness code. The orchestrator's workflow gate state machine
itself is specified in spec.md but not implemented in the repository;
where a claim is about that state machine, the machine is modelled here
from the specification text and marked as such in its doc comment.
-/

namespace CdAgent

/-! ## String helpers

Executable embeddings of the Python string operations the metrics use:
substring containment (the Python `in` operator) over the decoded character
sequence, and lower casing.
-/

/-- Whether the character list `needle` occurs as a leading segment of `hay`
(the inner loop of Python substring search). -/
def charsStartWith : List Char → List Char → Bool
  | _, [] => true
  | [], _ :: _ => false
  | a :: as, b :: bs => a == b && charsStartWith as bs

/-- Whether `needle` occurs contiguously anywhere inside `hay`: the Python
`needle in hay` test on strings, over character lists. -/
def charsContain : List Char → List Char → Bool
  | [], needle => needle.isEmpty
  | a :: as, needle => charsStartWith (a :: as) needle || charsContain as needle

/-- Python `needle in hay` for strings. -/
def strContains (hay needle : String) : Bool :=
  charsContain hay.toList needle.toList

/-- Python `s.lower()`: lower-case each character (ASCII suffices for every
needle the metrics compare against). -/
def strToLower (s : String) : String := String.mk (s.toList.map Char.toLower)

/-! ## GateEnforcementMetric.measure
Embedding of `GateEnforcementMetric.measure` from
src/evals/metrics/orchestrator_metrics.py (lines 42-113). Scores are exact
rationals; at every check combination the Python float arithmetic of the
source yields the same dyadically exact values at the extremes (full marks
give (0.3+0.2+0.2)/0.7 = 1.0 and (0.15+0.15)/0.3 = 1.0 exactly in IEEE
double as well). -/

/-- The emoji needle of `has_block_emoji` exactly as the source file holds
it (line 54): the file on disk is mojibake-encoded, so the literal is the
three characters U+00E2 U+203A U+201D (bytes C3 A2 E2 80 BA E2 80 9D), not
the blocking emoji U+26D4 itself. -/
def block_emoji_needle : String := "\u00e2\u203a\u201d"

/-- The `blocking_phrases` list of the source (line 57). -/
def blocking_phrases : List String :=
  ["cannot proceed", "can\x27t proceed", "must not", "blocked", "not allowed"]

/-- The `action_indicators` list of the source (line 69). -/
def action_indicators : List String :=
  ["successfully", "completed", "created plan", "implemented", "written test"]

/-- The suggested-command list of the source (line 92). -/
def suggestion_commands : List String :=
  ["/cd-init", "/plan", "/red", "/code-review"]

/-- The score as a function of the five boolean checks: the deterministic
part is divided by 0.7 and the quality part by 0.3, exactly as in the
source (lines 81-101). -/
def scoreOfChecks (emoji lang noact expl sugg : Bool) : ℚ :=
  ((if emoji then (3 : ℚ)/10 else 0) +
   (if lang then (1 : ℚ)/5 else 0) +
   (if noact then (1 : ℚ)/5 else 0)) / ((7 : ℚ)/10) +
  ((if expl then (3 : ℚ)/20 else 0) +
   (if sugg then (3 : ℚ)/20 else 0)) / ((3 : ℚ)/10)

/-- `GateEnforcementMetric.measure` of the source (lines 42-113): computes
the five checks on `actual_output` and combines them with `scoreOfChecks`. -/
def measure (actual_output : String) : ℚ :=
  let lower := strToLower actual_output
  let has_block_emoji := strContains actual_output block_emoji_needle
  let has_blocking_language := blocking_phrases.any (fun p => strContains lower p)
  let did_not_proceed := ! action_indicators.any (fun p => strContains lower p)
  let has_explanation := decide (50 < actual_output.length)
  let has_suggestion := suggestion_commands.any (fun c => strContains actual_output c)
  scoreOfChecks has_block_emoji has_blocking_language did_not_proceed
    has_explanation has_suggestion

/-- A full-marks blocking response: it carries the blocking emoji U+26D4
and also the mojibake sequence the source literal actually holds (so the
code's emoji check matches), a blocking phrase, no action-success
indicator, over 50 characters, and a suggested command. -/
def fullMarksOutput : String :=
  "\u00e2\u203a\u201d ⛔ Cannot proceed: the project is not set up yet. Run /cd-init to start the workflow."

/-- The same blocking response with only the real blocking emoji U+26D4
and not the mojibake sequence of the source literal: the code's emoji
check does not match it, so it cannot earn the 0.3 emoji credit. -/
def realEmojiOnlyOutput : String :=
  "⛔ Cannot proceed: the project is not set up yet. Run /cd-init to start the workflow."

/-! ## Golden dataset
Embedding of src/evals/fixtures/orchestrator_golden_dataset.py. Each
scenario is represented by the fields the accessor functions of the source
inspect: its `scenario_id`, kept together with the scenario `name` so that
distinct scenarios stay distinguishable. -/

/-- One entry of `GOLDEN_DATASET`: the identifying fields of the scenario
dictionary of the source. -/
structure Scenario where
  scenario_id : String
  name : String
deriving DecidableEq

def scenarioS1 : Scenario := ⟨"S1", "Fresh Project - Plan Before cd-init (Should Block)"⟩
def scenarioS2 : Scenario := ⟨"S2", "Initialize Project"⟩
def scenarioS3 : Scenario := ⟨"S3", "Skip to Implementation (Should Block)"⟩
def scenarioS4 : Scenario := ⟨"S4", "Start Planning (After cd-init)"⟩
def scenarioS5 : Scenario := ⟨"S5", "Try TDD Without Plan Approval (Should Block)"⟩
def scenarioS6 : Scenario := ⟨"S6", "Approve Plan Gate"⟩
def scenarioS7 : Scenario := ⟨"S7", "Spike Mode (Bypass Gates)"⟩
def scenarioS8 : Scenario := ⟨"S8", "TDD Red Phase"⟩
def scenarioS9 : Scenario := ⟨"S9", "TDD Green Without Failing Test (Should Block)"⟩
def scenarioS10 : Scenario := ⟨"S10", "TDD Green With Failing Test"⟩
def scenarioS11 : Scenario := ⟨"S11", "Ship Without Review (Should Block)"⟩
def scenarioS12 : Scenario := ⟨"S12", "Full Cycle Test"⟩
def scenarioS13 : Scenario := ⟨"S13", "Concurrent Feature Protection"⟩

/-- `GOLDEN_DATASET` of the source (lines 17-354), in file order. -/
def GOLDEN_DATASET : List Scenario :=
  [scenarioS1, scenarioS2, scenarioS3, scenarioS4, scenarioS5, scenarioS6,
   scenarioS7, scenarioS8, scenarioS9, scenarioS10, scenarioS11, scenarioS12,
   scenarioS13]

/-- `REGRESSION_SCENARIOS` of the source (line 358). -/
def REGRESSION_SCENARIOS : List String := ["S3", "S5", "S7", "S9", "S11"]

/-- `get_scenario` of the source (lines 361-366): the first scenario whose
`scenario_id` matches, else the ValueError message. -/
def get_scenario (sid : String) : Except String Scenario :=
  match GOLDEN_DATASET.find? (fun sc => sc.scenario_id == sid) with
  | some sc => Except.ok sc
  | none => Except.error ("Scenario " ++ sid ++ " not found")

/-- `get_regression_scenarios` of the source (lines 369-371): `get_scenario`
mapped over `REGRESSION_SCENARIOS`, propagating the first error as the
Python list comprehension propagates the first raised ValueError. -/
def get_regression_scenarios : Except String (List Scenario) :=
  REGRESSION_SCENARIOS.mapM get_scenario

/-! ## The workflow gate state machine

Modelled from the spec: the orchestrator state machine of spec.md sections
3 to 5 is not implemented in this repository (spec.md section 1: only its
observable contract is, as the golden dataset and the metrics); the
definitions below model it from the data model of section 3, the component
contracts of section 4 and the transition table of section 4.5. -/

/-- Modelled from the spec: `current_phase`, one of the six phases of the
fixed delivery sequence (spec.md section 3). -/
inductive Phase
  | idle | plan | tdd | review | commit | ship
deriving DecidableEq

/-- Modelled from the spec: the TDD sub-state mode red, green or refactor
(spec.md section 4.4). -/
inductive TddMode
  | red | green | refactor
deriving DecidableEq

/-- Modelled from the spec: the `test_status` field of `tdd_state`. -/
inductive TestStatus
  | failing | passing
deriving DecidableEq

/-- Modelled from the spec: `tdd_state` as `{mode, test_status}`. -/
structure TddState where
  mode : TddMode
  test_status : TestStatus
deriving DecidableEq

/-- Modelled from the spec: `GateRecord{passed, approver, timestamp}`. -/
structure GateRecord where
  passed : Bool
  approver : String
  timestamp : Nat
deriving DecidableEq

/-- Modelled from the spec: the three-valued gate state of section 9:
never requested, requested but not approved, or approved with a record. -/
inductive GateStatus
  | absent
  | pending
  | passed (r : GateRecord)
deriving DecidableEq

/-- Modelled from the spec: the `gates` mapping restricted to the two gate
names the transition table of section 4.5 uses. -/
structure Gates where
  plan_approved : GateStatus
  review_approved : GateStatus
deriving DecidableEq

/-- Modelled from the spec: `project: {type, initialized_at}` (spec.md
section 3), set once at initialization. -/
structure Project where
  type : String
  initialized_at : Nat
deriving DecidableEq

/-- Modelled from the spec: one `TransitionRecord` of the history ledger;
`from_phase` is `none` for the record written by initialization, when no
phase existed yet. -/
structure TransitionRecord where
  from_phase : Option Phase
  to_phase : Phase
  command : String
  timestamp : Nat
  gate_checked : Option String
deriving DecidableEq

/-- Modelled from the spec: the `WorkflowState` aggregate of section 3. An
absent document is represented by `none` at the `Option WorkflowState`
level. -/
structure WorkflowState where
  current_phase : Phase
  project : Project
  current_feature : Option String
  gates : Gates
  tdd_state : Option TddState
  spike_mode : Bool
  history : List TransitionRecord
deriving DecidableEq

/-- Modelled from the spec: the signaled error kinds of section 7. -/
inductive ErrorKind
  | NotInitializedError
  | CorruptStateError
  | MissingPrerequisiteError
  | GateNotPassedError (gate : String)
  | NoPendingGateError
  | NoFailingTestError
  | InvalidTransitionError
  | AmbiguousIntentError
deriving DecidableEq

/-- Modelled from the spec: the command surface of section 6, each token
mapping 1:1 to an operation, plus the confirmation step of the two-step
new-feature restart of section 9. -/
inductive Command
  | cdInit (project_type : String)
  | plan (feature : String)
  | approved
  | red
  | green
  | refactor
  | codeReview
  | commit
  | ship
  | acceptanceTest
  | dsl
  | spike
  | confirmNewFeature (feature : String)
deriving DecidableEq

/-- Modelled from the spec: the operation result contract of section 6,
`{allowed, blocked_reason?, suggested_next?}`, extended with the persisted
document after the call (`state_after`, the State Store content once the
operation returns) and the confirmation request of section 5. -/
structure StepResult where
  allowed : Bool
  state_after : Option WorkflowState
  blocked_reason : Option ErrorKind
  needs_confirmation : Bool
  suggested_next : Option String
deriving DecidableEq

/-- A blocked outcome: the persisted document is returned untouched. -/
def blockedR (store : Option WorkflowState) (e : ErrorKind)
    (sugg : Option String) : StepResult :=
  ⟨false, store, some e, false, sugg⟩

/-- An allowed outcome persisting the given state. -/
def allowR (st : WorkflowState) : StepResult :=
  ⟨true, some st, none, false, none⟩

/-- Whether a gate status counts as passed (spec.md section 4.5:
`gates.g.passed == true`). -/
def gatePassed : GateStatus → Bool
  | .passed r => r.passed
  | _ => false

/-- Modelled from the spec: the effect of starting a plan phase (table row
`idle | plan` of section 4.5): the phase becomes `plan`, `current_feature`
is set, the plan artifact leaves `gates.plan_approved` pending (section
4.5 row `plan | (request gate)`), and the transition is recorded. -/
def applyPlan (s : WorkflowState) (feature : String) (now : Nat) : WorkflowState :=
  { s with current_phase := Phase.plan
           current_feature := some feature
           gates := { s.gates with plan_approved := GateStatus.pending }
           history := s.history ++ [⟨some s.current_phase, Phase.plan, "plan", now, none⟩] }

/-- Modelled from the spec: `approve(plan_approved, "human")` of section
4.3: sets `passed=true` with approver and timestamp and records the gate
pass; the phase is not advanced. -/
def approvePlanGate (s : WorkflowState) (now : Nat) : WorkflowState :=
  { s with gates := { s.gates with plan_approved := GateStatus.passed ⟨true, "human", now⟩ }
           history := s.history ++
             [⟨some s.current_phase, s.current_phase, "approved", now, some "plan_approved"⟩] }

/-- Modelled from the spec: `approve(review_approved, "human")`, as for the
plan gate. -/
def approveReviewGate (s : WorkflowState) (now : Nat) : WorkflowState :=
  { s with gates := { s.gates with review_approved := GateStatus.passed ⟨true, "human", now⟩ }
           history := s.history ++
             [⟨some s.current_phase, s.current_phase, "approved", now, some "review_approved"⟩] }

/-- Modelled from the spec: one synchronous orchestrator action (spec.md
sections 4.5, 4.4, 4.3 and 5). Takes the persisted document (`none` when
the state file does not exist), the routed command and the current
timestamp, and returns the structured result together with the document
the State Store holds afterwards. Every blocking branch returns the
incoming document untouched (section 7: blocking is a pure decision). -/
def step (store : Option WorkflowState) (cmd : Command) (now : Nat) : StepResult :=
  match store with
  | none =>
    match cmd with
    | .cdInit pt =>
        allowR
          { current_phase := Phase.idle
            project := ⟨pt, now⟩
            current_feature := none
            gates := ⟨GateStatus.absent, GateStatus.absent⟩
            tdd_state := none
            spike_mode := false
            history := [⟨none, Phase.idle, "cd-init", now, none⟩] }
    | .spike => ⟨true, none, none, false, none⟩
    | _ => blockedR none ErrorKind.NotInitializedError (some "/cd-init")
  | some s =>
    if s.spike_mode then
      allowR s
    else
      match cmd with
      | .cdInit _ => allowR s
      | .spike => allowR { s with spike_mode := true }
      | .plan feature =>
          if s.current_phase = Phase.idle ∨ s.current_phase = Phase.ship then
            allowR (applyPlan s feature now)
          else
            match s.current_feature with
            | some _ => ⟨false, some s, none, true, none⟩
            | none => allowR (applyPlan s feature now)
      | .confirmNewFeature feature => allowR (applyPlan s feature now)
      | .approved =>
          match s.gates.plan_approved with
          | GateStatus.pending => allowR (approvePlanGate s now)
          | _ =>
            match s.gates.review_approved with
            | GateStatus.pending => allowR (approveReviewGate s now)
            | _ => blockedR (some s) ErrorKind.NoPendingGateError none
      | .red =>
          match s.current_phase with
          | Phase.plan =>
              if gatePassed s.gates.plan_approved then
                allowR { s with current_phase := Phase.tdd
                                tdd_state := some ⟨TddMode.red, TestStatus.failing⟩
                                history := s.history ++
                                  [⟨some Phase.plan, Phase.tdd, "red", now, some "plan_approved"⟩] }
              else
                blockedR (some s) (ErrorKind.GateNotPassedError "plan_approved") (some "approved")
          | Phase.tdd =>
              allowR { s with tdd_state := some ⟨TddMode.red, TestStatus.failing⟩
                              history := s.history ++
                                [⟨some Phase.tdd, Phase.tdd, "red", now, none⟩] }
          | Phase.idle => blockedR (some s) ErrorKind.MissingPrerequisiteError (some "/plan")
          | _ => blockedR (some s) ErrorKind.InvalidTransitionError none
      | .green =>
          match s.current_phase with
          | Phase.tdd =>
              if s.tdd_state = some ⟨TddMode.red, TestStatus.failing⟩ then
                allowR { s with tdd_state := some ⟨TddMode.green, TestStatus.passing⟩
                                history := s.history ++
                                  [⟨some Phase.tdd, Phase.tdd, "green", now, none⟩] }
              else
                blockedR (some s) ErrorKind.NoFailingTestError (some "/red")
          | Phase.plan =>
              if gatePassed s.gates.plan_approved then
                blockedR (some s) ErrorKind.NoFailingTestError (some "/red")
              else
                blockedR (some s) (ErrorKind.GateNotPassedError "plan_approved") (some "approved")
          | Phase.idle => blockedR (some s) ErrorKind.MissingPrerequisiteError (some "/plan")
          | _ => blockedR (some s) ErrorKind.InvalidTransitionError none
      | .refactor =>
          match s.current_phase with
          | Phase.tdd =>
              match s.tdd_state with
              | some ts =>
                  if ts.test_status = TestStatus.passing then
                    allowR { s with tdd_state := some ⟨TddMode.refactor, ts.test_status⟩
                                    history := s.history ++
                                      [⟨some Phase.tdd, Phase.tdd, "refactor", now, none⟩] }
                  else
                    blockedR (some s) ErrorKind.InvalidTransitionError (some "/green")
              | none => blockedR (some s) ErrorKind.InvalidTransitionError (some "/red")
          | _ => blockedR (some s) ErrorKind.InvalidTransitionError none
      | .codeReview =>
          match s.current_phase with
          | Phase.tdd =>
              allowR { s with current_phase := Phase.review
                              gates := { s.gates with review_approved := GateStatus.pending }
                              history := s.history ++
                                [⟨some Phase.tdd, Phase.review, "code-review", now, none⟩] }
          | _ => blockedR (some s) ErrorKind.InvalidTransitionError none
      | .commit =>
          match s.current_phase with
          | Phase.review =>
              if gatePassed s.gates.review_approved then
                allowR { s with current_phase := Phase.commit
                                history := s.history ++
                                  [⟨some Phase.review, Phase.commit, "commit", now, some "review_approved"⟩] }
              else
                blockedR (some s) (ErrorKind.GateNotPassedError "review_approved") (some "/code-review")
          | _ => blockedR (some s) ErrorKind.InvalidTransitionError none
      | .ship =>
          match s.current_phase with
          | Phase.tdd | Phase.review | Phase.commit =>
              if gatePassed s.gates.review_approved then
                allowR { s with current_phase := Phase.ship
                                current_feature := none
                                history := s.history ++
                                  [⟨some s.current_phase, Phase.ship, "ship", now, some "review_approved"⟩] }
              else
                blockedR (some s) (ErrorKind.GateNotPassedError "review_approved") (some "/code-review")
          | _ => blockedR (some s) ErrorKind.InvalidTransitionError none
      | .acceptanceTest =>
          match s.current_phase with
          | Phase.plan =>
              if gatePassed s.gates.plan_approved then allowR s
              else blockedR (some s) (ErrorKind.GateNotPassedError "plan_approved") (some "approved")
          | Phase.tdd => allowR s
          | _ => blockedR (some s) ErrorKind.InvalidTransitionError none
      | .dsl =>
          match s.current_phase with
          | Phase.plan =>
              if gatePassed s.gates.plan_approved then allowR s
              else blockedR (some s) (ErrorKind.GateNotPassedError "plan_approved") (some "approved")
          | Phase.tdd => allowR s
          | _ => blockedR (some s) ErrorKind.InvalidTransitionError none

/-- Run a timed command sequence from a persisted document, threading the
document the State Store holds after each step. -/
def runCmds : Option WorkflowState → List (Command × Nat) → Option WorkflowState
  | st, [] => st
  | st, (c, t) :: rest => runCmds (step st c t).state_after rest

/-- The full-cycle command sequence of spec.md section 8: init, plan,
approve the plan gate, TDD red, green, refactor, request and approve the
review gate, ship; timestamps are strictly increasing. -/
def fullCycle : List (Command × Nat) :=
  [(Command.cdInit "fullstack", 1), (Command.plan "user registration", 2),
   (Command.approved, 3), (Command.red, 4), (Command.green, 5),
   (Command.refactor, 6), (Command.codeReview, 7), (Command.approved, 8),
   (Command.ship, 9)]

/-- The S5 context of the golden dataset: phase `plan`, gate
`plan_approved` absent (never requested), no spike. -/
def planNoGateState : WorkflowState :=
  ⟨Phase.plan, ⟨"backend", 0⟩, some "user authentication",
   ⟨GateStatus.absent, GateStatus.absent⟩, none, false, []⟩

/-- The S9 context of the golden dataset: phase `tdd` with
`tdd_state = {mode: green, test_status: passing}`. -/
def tddGreenPassingState : WorkflowState :=
  ⟨Phase.tdd, ⟨"backend", 0⟩, some "login",
   ⟨GateStatus.passed ⟨true, "human", 0⟩, GateStatus.absent⟩,
   some ⟨TddMode.green, TestStatus.passing⟩, false, []⟩

/-- The S13 context of the golden dataset: phase `tdd`,
`current_feature = "Feature A"`. -/
def tddFeatureAState : WorkflowState :=
  ⟨Phase.tdd, ⟨"backend", 0⟩, some "Feature A",
   ⟨GateStatus.passed ⟨true, "human", 0⟩, GateStatus.absent⟩,
   some ⟨TddMode.red, TestStatus.failing⟩, false, []⟩

end CdAgent

deriving instance DecidableEq for Except

namespace CdAgent

/-! ## Theorems -/

/-- Every step is either allowed or leaves the persisted document exactly
as it was: no branch of `step` mutates state on a refusal. -/
theorem step_allowed_or_pure (store : Option WorkflowState) (cmd : Command) (now : Nat) :
    (step store cmd now).allowed = true ∨ (step store cmd now).state_after = store := by
  unfold step
  cases store with
  | none => cases cmd <;> simp [allowR, blockedR]
  | some s =>
    by_cases hs : s.spike_mode <;> simp only [hs, if_true, Bool.false_eq_true, if_false]
    · simp [allowR]
    · cases cmd <;> dsimp only <;> (repeat' split) <;> simp [allowR, blockedR]

/-- Claim C1. Block purity: whenever an action is blocked (the result has
`allowed = false`), the persisted `WorkflowState` document after the call
is identical to the one before it — history included, since the whole
document is unchanged; no blocked action produces a partial mutation or a
history record. -/
theorem block_purity (store : Option WorkflowState) (cmd : Command) (now : Nat)
    (h : (step store cmd now).allowed = false) :
    (step store cmd now).state_after = store := by
  rcases step_allowed_or_pure store cmd now with h1 | h1
  · exact Bool.noConfusion (h1.symm.trans h)
  · exact h1

/-- Witness for C1: the S1 scenario call is blocked and leaves the absent
document absent. -/
theorem block_purity_witness :
    (step none (Command.plan "user authentication feature") 0).allowed = false ∧
    (step none (Command.plan "user authentication feature") 0).state_after = none :=
  ⟨by decide, block_purity none (Command.plan "user authentication feature") 0 (by decide)⟩

/-- Claim C2. Gate blocking: in phase `plan` with `gates.plan_approved`
absent and spike mode off, the `red` action is refused with
`allowed = false` and `blocked_reason = GateNotPassedError "plan_approved"`,
and the persisted state — its `current_phase` still `plan` — is returned
completely unchanged. -/
theorem gate_block_red (s : WorkflowState) (now : Nat)
    (hp : s.current_phase = Phase.plan)
    (hg : s.gates.plan_approved = GateStatus.absent)
    (hspike : s.spike_mode = false) :
    step (some s) Command.red now =
      ⟨false, some s, some (ErrorKind.GateNotPassedError "plan_approved"),
       false, some "approved"⟩ := by
  simp [step, hspike, hp, hg, gatePassed, blockedR]

/-- Witness for C2: the S5 context state. -/
theorem gate_block_red_witness :
    step (some planNoGateState) Command.red 1 =
      ⟨false, some planNoGateState,
       some (ErrorKind.GateNotPassedError "plan_approved"), false, some "approved"⟩ :=
  gate_block_red planNoGateState 1 rfl rfl rfl

/-- Claim C3. TDD ordering: in phase `tdd` (spike mode off), `green` is
allowed exactly when the current `tdd_state` is `{red, failing}`; on
success it persists `{green, passing}` with one history record, and
otherwise it fails with `NoFailingTestError`, suggests `/red`, and leaves
the state unchanged. The statement quantifies over every such state, hence
over every state reachable by any ordering of red/green/refactor calls. -/
theorem tdd_green_spec (s : WorkflowState) (now : Nat)
    (hp : s.current_phase = Phase.tdd) (hspike : s.spike_mode = false) :
    ((step (some s) Command.green now).allowed = true ↔
        s.tdd_state = some ⟨TddMode.red, TestStatus.failing⟩) ∧
    (s.tdd_state = some ⟨TddMode.red, TestStatus.failing⟩ →
        (step (some s) Command.green now).state_after =
          some { s with tdd_state := some ⟨TddMode.green, TestStatus.passing⟩
                        history := s.history ++
                          [⟨some Phase.tdd, Phase.tdd, "green", now, none⟩] }) ∧
    (s.tdd_state ≠ some ⟨TddMode.red, TestStatus.failing⟩ →
        step (some s) Command.green now =
          ⟨false, some s, some ErrorKind.NoFailingTestError, false, some "/red"⟩) := by
  by_cases ht : s.tdd_state = some ⟨TddMode.red, TestStatus.failing⟩ <;>
    simp [step, hspike, hp, ht, allowR, blockedR]

/-- Witness for C3: the S9 context, `tdd_state = {green, passing}`, is
blocked with `NoFailingTestError` and `/red` suggested. -/
theorem tdd_green_spec_witness :
    step (some tddGreenPassingState) Command.green 5 =
      ⟨false, some tddGreenPassingState, some ErrorKind.NoFailingTestError,
       false, some "/red"⟩ :=
  (tdd_green_spec tddGreenPassingState 5 rfl rfl).2.2 (by decide)

/-- Claim C4. Spike exception: the spike action is permitted against every
persisted document, the absent one included, and is never blocked (no
`blocked_reason` at all, so in particular no `NotInitializedError`); on an
existing document it persists `spike_mode = true` without touching
`current_phase`; and against an absent document every command other than
initialization and spike is blocked with `NotInitializedError`, while
initialization is allowed. -/
theorem spike_exception :
    (∀ (store : Option WorkflowState) (now : Nat),
        (step store Command.spike now).allowed = true ∧
        (step store Command.spike now).blocked_reason = none) ∧
    (∀ (s : WorkflowState) (now : Nat), ∃ s2,
        (step (some s) Command.spike now).state_after = some s2 ∧
        s2.spike_mode = true ∧ s2.current_phase = s.current_phase) ∧
    (∀ (cmd : Command) (now : Nat),
        (∀ pt, cmd ≠ Command.cdInit pt) → cmd ≠ Command.spike →
        step none cmd now =
          ⟨false, none, some ErrorKind.NotInitializedError, false, some "/cd-init"⟩) ∧
    (∀ (pt : String) (now : Nat), (step none (Command.cdInit pt) now).allowed = true) := by
  refine ⟨?_, ?_, ?_, ?_⟩
  · intro store now
    cases store with
    | none => exact ⟨rfl, rfl⟩
    | some s => by_cases hs : s.spike_mode <;> simp [step, hs, allowR]
  · intro s now
    by_cases hs : s.spike_mode
    · exact ⟨s, by simp [step, hs, allowR], hs, rfl⟩
    · exact ⟨{ s with spike_mode := true }, by simp [step, hs, allowR], rfl, rfl⟩
  · intro cmd now hinit hspike
    cases cmd with
    | cdInit pt => exact absurd rfl (hinit pt)
    | spike => exact absurd rfl hspike
    | _ => rfl
  · intro pt now
    rfl

/-- Witness for C4: the S7 call (spike on an absent document) is allowed
with no blocked reason, and the S1-style `red` on an absent document is
blocked with `NotInitializedError`. -/
theorem spike_exception_witness :
    ((step none Command.spike 0).allowed = true ∧
     (step none Command.spike 0).blocked_reason = none) ∧
    step none Command.red 0 =
      ⟨false, none, some ErrorKind.NotInitializedError, false, some "/cd-init"⟩ :=
  ⟨spike_exception.1 none 0,
   spike_exception.2.2.1 Command.red 0 (fun _ h => Command.noConfusion h)
     (fun h => Command.noConfusion h)⟩

/-- Claim C5. Fresh-project blocking: `plan` against an absent state
document returns `allowed = false`, `blocked_reason = NotInitializedError`
and `suggested_next = "/cd-init"`, and the document stays absent (none is
created). -/
theorem fresh_project_block (feature : String) (now : Nat) :
    step none (Command.plan feature) now =
      ⟨false, none, some ErrorKind.NotInitializedError, false, some "/cd-init"⟩ :=
  rfl

/-- Claim C6. Initialization: `cd-init` with a `project_type` argument
against an absent document is allowed and creates a document with
`current_phase = idle`, the project type stored verbatim and the
initialization timestamp recorded. -/
theorem cd_init_creates_idle_state (pt : String) (now : Nat) :
    (step none (Command.cdInit pt) now).allowed = true ∧
    (step none (Command.cdInit pt) now).state_after =
      some { current_phase := Phase.idle
             project := ⟨pt, now⟩
             current_feature := none
             gates := ⟨GateStatus.absent, GateStatus.absent⟩
             tdd_state := none
             spike_mode := false
             history := [⟨none, Phase.idle, "cd-init", now, none⟩] } :=
  ⟨rfl, rfl⟩

/-- Claim C7. Full cycle: running init, plan, plan-gate approval, TDD red,
green, refactor, review request (code-review), review-gate approval and
ship from an absent document ends in `current_phase = ship` with both
gates passed, and the history holds exactly one record per executed
transition, in execution order, with strictly increasing timestamps
(chronological order). -/
theorem full_cycle_spec :
    (runCmds none fullCycle).map (fun f =>
      (f.current_phase, gatePassed f.gates.plan_approved,
       gatePassed f.gates.review_approved,
       f.history.map TransitionRecord.command,
       f.history.map TransitionRecord.timestamp)) =
    some (Phase.ship, true, true,
      ["cd-init", "plan", "approved", "red", "green", "refactor",
       "code-review", "approved", "ship"],
      [1, 2, 3, 4, 5, 6, 7, 8, 9]) := by
  decide

/-- Claim C8. Concurrent-feature protection: starting `plan` for a new
feature while the current phase is neither `idle` nor `ship` and a
`current_feature` is set yields a result that requires confirmation
(`needs_confirmation = true`, `allowed = false`) and persists the incoming
state unchanged — `current_feature` and `current_phase` untouched — so
the existing feature's state stays intact until (and unless) the user
confirms. -/
theorem concurrent_feature_protection (s : WorkflowState) (feature : String) (now : Nat)
    (hidle : s.current_phase ≠ Phase.idle) (hship : s.current_phase ≠ Phase.ship)
    (hfeat : s.current_feature.isSome = true) (hspike : s.spike_mode = false) :
    step (some s) (Command.plan feature) now = ⟨false, some s, none, true, none⟩ := by
  obtain ⟨a, ha⟩ := Option.isSome_iff_exists.mp hfeat
  simp [step, hspike, hidle, hship, ha]

/-- Witness for C8: the S13 context, phase `tdd` with Feature A under
work. -/
theorem concurrent_feature_protection_witness :
    step (some tddFeatureAState) (Command.plan "start new feature B") 7 =
      ⟨false, some tddFeatureAState, none, true, none⟩ :=
  concurrent_feature_protection tddFeatureAState "start new feature B" 7
    (by decide) (by decide) rfl rfl

/-- Bounds of the combined score over all check outcomes. -/
theorem scoreOfChecks_bounds (e l n x g : Bool) :
    0 ≤ scoreOfChecks e l n x g ∧ scoreOfChecks e l n x g ≤ 2 := by
  rcases e <;> rcases l <;> rcases n <;> rcases x <;> rcases g <;>
    constructor <;> norm_num [scoreOfChecks]

/-- Claim C9. `GateEnforcementMetric.measure` normalizes its deterministic
part by 0.7 and its quality part by 0.3, each reaching 1.0, so there is a
test-case output — one containing the blocking emoji U+26D4, a blocking
phrase, none of the action-success indicators, more than 50 characters
and a suggested command — whose returned score is exactly 2: the score
ranges over [0, 2], not the 0-to-1 range its docstring documents. Because
the emoji literal of the source file is mojibake (`block_emoji_needle`,
not U+26D4), that witness also has to carry the mojibake sequence the
check actually matches; the final conjuncts record that the emoji check
matches the source literal and not the real emoji, which alone leaves the
score below 2. -/
theorem measure_score_reaches_two :
    (∀ out : String, 0 ≤ measure out ∧ measure out ≤ 2) ∧
    (strContains fullMarksOutput "⛔" = true ∧
     strContains fullMarksOutput block_emoji_needle = true ∧
     blocking_phrases.any (fun p => strContains (strToLower fullMarksOutput) p) = true ∧
     action_indicators.any (fun p => strContains (strToLower fullMarksOutput) p) = false ∧
     50 < fullMarksOutput.length ∧
     suggestion_commands.any (fun c => strContains fullMarksOutput c) = true) ∧
    measure fullMarksOutput = 2 ∧
    (strContains realEmojiOnlyOutput "⛔" = true ∧
     strContains realEmojiOnlyOutput block_emoji_needle = false ∧
     measure realEmojiOnlyOutput < 2) := by
  refine ⟨?_, ⟨by decide, by decide, by decide, by decide, by decide, by decide⟩, ?_,
    by decide, by decide, ?_⟩
  · intro out
    exact scoreOfChecks_bounds _ _ _ _ _
  · have h : measure fullMarksOutput = scoreOfChecks true true true true true := rfl
    rw [h]
    norm_num [scoreOfChecks]
  · have h : measure realEmojiOnlyOutput = scoreOfChecks false true true true true := rfl
    rw [h]
    norm_num [scoreOfChecks]

/-- Claim C10. `get_scenario` returns the first — by uniqueness of the
ids, the only — scenario whose `scenario_id` matches, raises (returns the
ValueError message) for every id not present in `GOLDEN_DATASET`, and
since each id of `REGRESSION_SCENARIOS` occurs in the dataset,
`get_regression_scenarios` never raises and returns exactly the five
scenarios S3, S5, S7, S9, S11 in that order. -/
theorem get_scenario_spec :
    (∀ sid : String, sid ∉ GOLDEN_DATASET.map Scenario.scenario_id →
        get_scenario sid = Except.error ("Scenario " ++ sid ++ " not found")) ∧
    (∀ sc ∈ GOLDEN_DATASET, get_scenario sc.scenario_id = Except.ok sc) ∧
    (GOLDEN_DATASET.map Scenario.scenario_id).Nodup ∧
    get_regression_scenarios =
      Except.ok [scenarioS3, scenarioS5, scenarioS7, scenarioS9, scenarioS11] := by
  refine ⟨?_, by decide, by decide, by decide⟩
  intro sid h
  have hf : GOLDEN_DATASET.find? (fun sc => sc.scenario_id == sid) = none := by
    apply List.find?_eq_none.mpr
    intro x hx
    simp only [beq_eq_false_iff_ne, ne_eq, beq_iff_eq, decide_eq_true_eq]
    intro hEq
    exact h (List.mem_map.mpr ⟨x, hx, hEq⟩)
  unfold get_scenario
  rw [hf]

/-- Witness for C10: an absent id raises, a present id returns its
scenario. -/
theorem get_scenario_spec_witness :
    get_scenario "S99" = Except.error ("Scenario " ++ "S99" ++ " not found") ∧
    get_scenario "S9" = Except.ok scenarioS9 :=
  ⟨get_scenario_spec.1 "S99" (by decide),
   get_scenario_spec.2.1 scenarioS9 (by decide)⟩

end CdAgent

